import Mathlib

/-!
Verification of the upload → extract → transcribe → cleanup pipeline of
`src/main.py` (class `VideoTranscriber` and the `main` page handler).

The external collaborators (the `whisper` model library, the `moviepy`
video library, and `os.unlink`) are modelled as an oracle record `Env`:
each fallible library call is a function returning `Option`/`Bool`, where
`none`/`false` stands for the call raising an exception.  The Python
methods are translated line by line into Lean functions that return a
trace record: the returned value, the new cached-model state, the new
filesystem state, and bookkeeping fields recording which calls were made
(which handles were closed, which unlink attempts occurred, whether the
model loader ran).  The filesystem is a list of existing file paths.
-/

namespace VideoTranscriber

/-- An opaque loaded-model handle (`whisper.load_model` result).  Concretely
represented as a `String` so that environments can be built and evaluated;
the pipeline code never inspects it, only passes it to `Env.transcribe`. -/
abbrev ModelH := String

/-- An opaque `VideoFileClip` handle. -/
abbrev VideoH := String

/-- An opaque `audio_clip` handle (`video_clip.audio` when not `None`). -/
abbrev AudioH := String

/-- The external world: each field models one third-party call site.
`none` / `false` model the call raising an exception. -/
structure Env where
  /-- `whisper.load_model(model_size)`; `none` = raises. -/
  load_model : String → Option ModelH
  /-- `VideoFileClip(video_path)`; `none` = raises (e.g. unparseable file). -/
  open_video : String → Option VideoH
  /-- `video_clip.audio`; `none` = the attribute is `None` (no audio track),
  in which case the later `write_audiofile` call raises. -/
  clip_audio : VideoH → Option AudioH
  /-- `audio_clip.write_audiofile(audio_path, logger=None)`; `false` = raises. -/
  write_audiofile : AudioH → String → Bool
  /-- `model.transcribe(audio_path)["text"]`; `none` = raises. -/
  transcribe : ModelH → String → Option String
  /-- Whether `os.unlink(path)` raises for the given path. -/
  unlink_fails : String → Bool

/-- The unique temporary name handed out by
`tempfile.NamedTemporaryFile(delete=False, suffix='.mp4')`. -/
def video_path : String := "tmpvideo.mp4"

/-- The unique temporary name handed out by
`tempfile.NamedTemporaryFile(delete=False, suffix='.wav')`. -/
def audio_path : String := "tmpaudio.wav"

/-- Trace of one `extract_audio_from_video` call. -/
structure ExtractTrace where
  /-- The returned Boolean (`True` on the success path, `False` from `except`). -/
  ok : Bool
  /-- `VideoFileClip(video_path)` returned a handle. -/
  video_opened : Bool
  /-- `video_clip.audio` yielded a (non-`None`) audio handle. -/
  audio_acquired : Bool
  /-- `video_clip.close()` was executed. -/
  video_closed : Bool
  /-- `audio_clip.close()` was executed. -/
  audio_closed : Bool
  /-- `st.error` messages emitted by this call. -/
  errors : List String
  deriving Repr, DecidableEq

/-- `VideoTranscriber.extract_audio_from_video` (src/main.py lines 22–33):
opens the video, takes its audio attribute, writes the audio file, then
closes the video clip and the audio clip; any exception is caught, reported
via `st.error`, and turned into a `False` return.  The two `close()` calls
are the last two statements of the `try` body, so they run only when every
earlier step succeeded. -/
def extract_audio_from_video (env : Env) (vp ap : String) : ExtractTrace :=
  match env.open_video vp with
  | none =>
      { ok := false, video_opened := false, audio_acquired := false
        video_closed := false, audio_closed := false
        errors := ["Error extracting audio"] }
  | some vc =>
      match env.clip_audio vc with
      | none =>
          -- `audio_clip` is `None`: `audio_clip.write_audiofile` raises.
          { ok := false, video_opened := true, audio_acquired := false
            video_closed := false, audio_closed := false
            errors := ["Error extracting audio"] }
      | some ac =>
          if env.write_audiofile ac ap then
            { ok := true, video_opened := true, audio_acquired := true
              video_closed := true, audio_closed := true, errors := [] }
          else
            { ok := false, video_opened := true, audio_acquired := true
              video_closed := false, audio_closed := false
              errors := ["Error extracting audio"] }

/-- `VideoTranscriber.load_whisper_model` (src/main.py lines 13–20):
returns `(returned_bool, new_cache, st_error_messages)`.  On success the
cached handle is overwritten; on an exception inside `whisper.load_model`
the assignment never happens, the error is reported, and `False` is
returned — the exception never propagates. -/
def load_whisper_model (env : Env) (cache : Option ModelH) (model_size : String) :
    Bool × Option ModelH × List String :=
  match env.load_model model_size with
  | some m => (true, some m, [])
  | none => (false, cache, ["Error loading Whisper model"])

/-- Trace of one transcription-adapter call. -/
structure TransTrace where
  /-- The returned value: `none` for Python `None`, `some t` for text `t`
  (possibly empty). -/
  result : Option String
  /-- The cached model handle after the call. -/
  cache : Option ModelH
  /-- Whether `whisper.load_model` was invoked during this call. -/
  load_invoked : Bool
  /-- The handle passed to `.transcribe`, when that call was reached. -/
  model_used : Option ModelH
  /-- `st.error` messages emitted by this call. -/
  errors : List String
  deriving Repr, DecidableEq

/-- `VideoTranscriber.transcribe_with_whisper_only` (src/main.py lines 48–59):
if the cache is empty, calls `load_whisper_model(model_size)` and returns
`None` when it fails; then calls `model.transcribe(audio_path)` and returns
its `"text"`, converting an exception into a reported error and `None`. -/
def transcribe_with_whisper_only (env : Env) (cache : Option ModelH)
    (ap model_size : String) : TransTrace :=
  match cache with
  | some m =>
      match env.transcribe m ap with
      | some t => { result := some t, cache := some m, load_invoked := false
                    model_used := some m, errors := [] }
      | none => { result := none, cache := some m, load_invoked := false
                  model_used := some m
                  errors := ["Error with Whisper transcription"] }
  | none =>
      match env.load_model model_size with
      | none => { result := none, cache := none, load_invoked := true
                  model_used := none
                  errors := ["Error loading Whisper model"] }
      | some m =>
          match env.transcribe m ap with
          | some t => { result := some t, cache := some m, load_invoked := true
                        model_used := some m, errors := [] }
          | none => { result := none, cache := some m, load_invoked := true
                      model_used := some m
                      errors := ["Error with Whisper transcription"] }

/-- `VideoTranscriber.transcribe_with_whisper` (src/main.py lines 35–46):
identical body except that the loader is called with its default size
`"base"`. -/
def transcribe_with_whisper (env : Env) (cache : Option ModelH)
    (ap : String) : TransTrace :=
  match cache with
  | some m =>
      match env.transcribe m ap with
      | some t => { result := some t, cache := some m, load_invoked := false
                    model_used := some m, errors := [] }
      | none => { result := none, cache := some m, load_invoked := false
                  model_used := some m
                  errors := ["Error with Whisper transcription"] }
  | none =>
      match env.load_model "base" with
      | none => { result := none, cache := none, load_invoked := true
                  model_used := none
                  errors := ["Error loading Whisper model"] }
      | some m =>
          match env.transcribe m ap with
          | some t => { result := some t, cache := some m, load_invoked := true
                        model_used := some m, errors := [] }
          | none => { result := none, cache := some m, load_invoked := true
                      model_used := some m
                      errors := ["Error with Whisper transcription"] }

/-- The `finally` block of `process_video` (src/main.py lines 87–93):
`try: os.unlink(video_path); os.unlink(audio_path) except: pass`.
Returns `(video_unlink_attempted, audio_unlink_attempted, new_fs)`.
Both unlinks sit in a single `try`, so when the first raises, control
jumps to `except` and the second is never attempted; either way the
exception is swallowed. -/
def cleanup_unlink (env : Env) (fs : List String) :
    Bool × Bool × List String :=
  if env.unlink_fails video_path then
    (true, false, fs)
  else
    let fs1 := fs.erase video_path
    if env.unlink_fails audio_path then
      (true, true, fs1)
    else
      (true, true, fs1.erase audio_path)

/-- Trace of one `process_video` call. -/
structure PVTrace where
  /-- The returned value (`none` = Python `None`). -/
  result : Option String
  /-- The cached model handle after the call. -/
  cache : Option ModelH
  /-- The filesystem state at the moment `extract_audio_from_video` is
  invoked (both staged files have been created by then). -/
  fs_at_extract : List String
  /-- Whether `transcribe_with_whisper_only` was invoked. -/
  transcribe_invoked : Bool
  /-- The handle passed to `.transcribe`, when reached. -/
  model_used : Option ModelH
  /-- Whether `whisper.load_model` was invoked during this call. -/
  load_invoked : Bool
  /-- Whether `os.unlink(video_path)` was attempted. -/
  unlink_video_attempted : Bool
  /-- Whether `os.unlink(audio_path)` was attempted. -/
  unlink_audio_attempted : Bool
  /-- The filesystem state when the call returns. -/
  fs_final : List String
  /-- `st.error` messages emitted by this call. -/
  errors : List String
  deriving Repr, DecidableEq

/-- `VideoTranscriber.process_video` (src/main.py lines 61–93): stages the
uploaded bytes into a temporary video file and allocates a temporary audio
file; then, inside `try`, extracts the audio (returning `None` on failure),
loads the model if the cache is empty (returning `None` on failure), and
calls `transcribe_with_whisper_only`; the `finally` block runs
`cleanup_unlink` on every exit path. -/
def process_video (env : Env) (cache : Option ModelH) (model_size : String)
    (fs0 : List String) : PVTrace :=
  let fs1 := audio_path :: video_path :: fs0
  let ext := extract_audio_from_video env video_path audio_path
  if ext.ok then
    match cache with
    | none =>
        match env.load_model model_size with
        | none =>
            let clean := cleanup_unlink env fs1
            { result := none, cache := none, fs_at_extract := fs1
              transcribe_invoked := false, model_used := none
              load_invoked := true
              unlink_video_attempted := clean.1, unlink_audio_attempted := clean.2.1
              fs_final := clean.2.2
              errors := ext.errors ++ ["Error loading Whisper model"] }
        | some m =>
            let tt := transcribe_with_whisper_only env (some m) audio_path model_size
            let clean := cleanup_unlink env fs1
            { result := tt.result, cache := tt.cache, fs_at_extract := fs1
              transcribe_invoked := true, model_used := tt.model_used
              load_invoked := true
              unlink_video_attempted := clean.1, unlink_audio_attempted := clean.2.1
              fs_final := clean.2.2, errors := ext.errors ++ tt.errors }
    | some m =>
        let tt := transcribe_with_whisper_only env (some m) audio_path model_size
        let clean := cleanup_unlink env fs1
        { result := tt.result, cache := tt.cache, fs_at_extract := fs1
          transcribe_invoked := true, model_used := tt.model_used
          load_invoked := tt.load_invoked
          unlink_video_attempted := clean.1, unlink_audio_attempted := clean.2.1
          fs_final := clean.2.2, errors := ext.errors ++ tt.errors }
  else
    let clean := cleanup_unlink env fs1
    { result := none, cache := cache, fs_at_extract := fs1
      transcribe_invoked := false, model_used := none, load_invoked := false
      unlink_video_attempted := clean.1, unlink_audio_attempted := clean.2.1
      fs_final := clean.2.2, errors := ext.errors }

/-- The upload size ceiling checked in `main` (src/main.py line 154):
`200 * 1024 * 1024` bytes, i.e. 200 MiB. -/
def max_upload_bytes : Nat := 200 * 1024 * 1024

/-- Trace of one click of the `Start Transcription` button in `main`
(src/main.py lines 153–173). -/
structure ClickTrace where
  /-- Whether `process_video` was invoked. -/
  pipeline_invoked : Bool
  /-- Whether the oversize error message was shown. -/
  oversize_error : Bool
  /-- Whether the generic transcription-failure message was shown. -/
  failure_message : Bool
  /-- Whether the completion message was shown. -/
  success_message : Bool
  /-- `st.session_state.transcription` after the click. -/
  session_transcription : Option String
  /-- The cached model handle after the click. -/
  cache : Option ModelH
  /-- The filesystem state after the click. -/
  fs_final : List String
  deriving Repr, DecidableEq

/-- The `Start Transcription` button handler in `main` (src/main.py lines
153–173): rejects files whose declared size exceeds `max_upload_bytes`
without invoking `process_video`; otherwise invokes the pipeline, and on a
truthy result stores it in `st.session_state.transcription` and shows the
completion message, while a falsy result (`None` or the empty string)
shows the generic failure message and leaves the session state unchanged. -/
def start_transcription_click (env : Env) (cache : Option ModelH)
    (session : Option String) (size : Nat) (model_size : String)
    (fs0 : List String) : ClickTrace :=
  if size > max_upload_bytes then
    { pipeline_invoked := false, oversize_error := true
      failure_message := false, success_message := false
      session_transcription := session, cache := cache, fs_final := fs0 }
  else
    let t := process_video env cache model_size fs0
    match t.result with
    | some txt =>
        if txt = "" then
          { pipeline_invoked := true, oversize_error := false
            failure_message := true, success_message := false
            session_transcription := session, cache := t.cache
            fs_final := t.fs_final }
        else
          { pipeline_invoked := true, oversize_error := false
            failure_message := false, success_message := true
            session_transcription := some txt, cache := t.cache
            fs_final := t.fs_final }
    | none =>
        { pipeline_invoked := true, oversize_error := false
          failure_message := true, success_message := false
          session_transcription := session, cache := t.cache
          fs_final := t.fs_final }

/-- The results column of `main` (src/main.py line 178): the transcription,
statistics and download buttons are rendered only when
`'transcription' in st.session_state and st.session_state.transcription`
holds, i.e. when a non-empty transcription is stored.  Returns the
transcription being displayed, or `none` when the placeholder is shown. -/
def results_panel_shows (session : Option String) : Option String :=
  match session with
  | some t => if t = "" then none else some t
  | none => none

/-- Python's `str.split()` with no separator, on a list of characters:
runs of whitespace separate the words, leading and trailing whitespace is
ignored, and no empty words are produced. -/
def py_words : List Char → List (List Char)
  | [] => []
  | c :: cs =>
      if c.isWhitespace then
        py_words cs
      else
        (c :: cs.takeWhile (fun d => !d.isWhitespace)) ::
          py_words (cs.dropWhile (fun d => !d.isWhitespace))
termination_by l => l.length
decreasing_by
  · simp only [List.length_cons]; omega
  · have := (List.dropWhile_sublist (l := cs) (fun d => !d.isWhitespace)).length_le
    simp only [List.length_cons]; omega

/-- The displayed word count (src/main.py line 188):
`len(st.session_state.transcription.split())`. -/
def word_count (s : String) : Nat := (py_words s.data).length

/-- The displayed character count (src/main.py line 189):
`len(st.session_state.transcription)`. -/
def char_count (s : String) : Nat := s.length

/-- The spec's reading of the word-count metric, written from its words:
"the count of whitespace-separated tokens in the transcription string" —
the maximal chunks obtained by cutting the string at every whitespace
character, empty chunks discarded. -/
def whitespace_token_count (s : String) : Nat :=
  ((s.data.splitOnP (fun c => c.isWhitespace)).filter (fun w => w ≠ [])).length

/-! ### Concrete environments used as witnesses and counterexamples -/

/-- An environment where every external call succeeds: `whisper.load_model`
returns a handle recording the requested size, and transcription reveals
which handle produced it. -/
def env_ok : Env where
  load_model := fun s => some s
  open_video := fun _ => some "vclip"
  clip_audio := fun _ => some "aclip"
  write_audiofile := fun _ _ => true
  transcribe := fun m _ => some (String.append "text-" m)
  unlink_fails := fun _ => false

/-- Like `env_ok` but `audio_clip.write_audiofile` raises. -/
def env_write_fails : Env :=
  { env_ok with write_audiofile := fun _ _ => false }

/-- Like `env_ok` but `os.unlink` raises on the staged video file. -/
def env_unlink_video_fails : Env :=
  { env_ok with unlink_fails := fun p => p == video_path }

/-- Like `env_ok` but `VideoFileClip` raises (a corrupted video). -/
def env_corrupt : Env :=
  { env_ok with open_video := fun _ => none }

/-- A corrupted video and, in addition, `os.unlink` raising on the staged
video file. -/
def env_corrupt_unlink_fails : Env :=
  { env_corrupt with unlink_fails := fun p => p == video_path }

/-- Like `env_ok` but the transcription engine returns the empty string. -/
def env_empty_text : Env :=
  { env_ok with transcribe := fun _ _ => some "" }

/-! ### Helper lemmas -/

/-- `extract_audio_from_video` never reads the unlink oracle. -/
theorem extract_update_unlink (env : Env) (f : String → Bool) (vp ap : String) :
    extract_audio_from_video { env with unlink_fails := f } vp ap =
      extract_audio_from_video env vp ap := rfl

/-- `transcribe_with_whisper_only` never reads the unlink oracle. -/
theorem transcribe_only_update_unlink (env : Env) (f : String → Bool)
    (cache : Option ModelH) (ap s : String) :
    transcribe_with_whisper_only { env with unlink_fails := f } cache ap s =
      transcribe_with_whisper_only env cache ap s := rfl

/-- The video unlink is always attempted. -/
theorem cleanup_unlink_video (env : Env) (fs : List String) :
    (cleanup_unlink env fs).1 = true := by
  unfold cleanup_unlink
  split
  · rfl
  · split <;> rfl

/-- The audio unlink is attempted exactly when the video unlink did not
raise. -/
theorem cleanup_unlink_audio (env : Env) (fs : List String) :
    (cleanup_unlink env fs).2.1 = !env.unlink_fails video_path := by
  unfold cleanup_unlink
  split
  · next h => simp [h]
  · next h => simp only [Bool.not_eq_true] at h; split <;> simp [h]

/-- With a cached handle, the adapter leaves the cache unchanged. -/
theorem transcribe_only_cache_some (env : Env) (m : ModelH) (ap s : String) :
    (transcribe_with_whisper_only env (some m) ap s).cache = some m := by
  cases h : env.transcribe m ap <;> simp [transcribe_with_whisper_only, h]

/-- With a cached handle, the adapter uses exactly that handle. -/
theorem transcribe_only_model_used_some (env : Env) (m : ModelH) (ap s : String) :
    (transcribe_with_whisper_only env (some m) ap s).model_used = some m := by
  cases h : env.transcribe m ap <;> simp [transcribe_with_whisper_only, h]

/-- With a cached handle, the adapter never invokes the loader. -/
theorem transcribe_only_no_load_some (env : Env) (m : ModelH) (ap s : String) :
    (transcribe_with_whisper_only env (some m) ap s).load_invoked = false := by
  cases h : env.transcribe m ap <;> simp [transcribe_with_whisper_only, h]

/-- With a cached handle, the adapter returns exactly what the model's
transcribe call produced (`none` when it raised). -/
theorem transcribe_only_result_some (env : Env) (m : ModelH) (ap s : String) :
    (transcribe_with_whisper_only env (some m) ap s).result =
      env.transcribe m ap := by
  cases h : env.transcribe m ap <;> simp [transcribe_with_whisper_only, h]

/-- Both staged files are created before extraction is invoked. -/
theorem pv_fs_at_extract (env : Env) (cache : Option ModelH) (s : String)
    (fs0 : List String) :
    (process_video env cache s fs0).fs_at_extract =
      audio_path :: video_path :: fs0 := by
  cases cache <;>
    cases hext : (extract_audio_from_video env video_path audio_path).ok <;>
      simp only [process_video, hext, Bool.false_eq_true, if_true, if_false] <;>
        first
          | rfl
          | (cases hlm : env.load_model s <;> simp only [hlm])

/-- The video unlink is attempted on every exit path of `process_video`. -/
theorem pv_unlink_video (env : Env) (cache : Option ModelH) (s : String)
    (fs0 : List String) :
    (process_video env cache s fs0).unlink_video_attempted = true := by
  cases cache <;>
    cases hext : (extract_audio_from_video env video_path audio_path).ok <;>
      cases hlm : env.load_model s <;>
        simp [process_video, hext, hlm, cleanup_unlink_video]

/-- The audio unlink is attempted exactly when the video unlink did not
raise, on every exit path of `process_video`. -/
theorem pv_unlink_audio (env : Env) (cache : Option ModelH) (s : String)
    (fs0 : List String) :
    (process_video env cache s fs0).unlink_audio_attempted =
      !env.unlink_fails video_path := by
  cases cache <;>
    cases hext : (extract_audio_from_video env video_path audio_path).ok <;>
      cases hlm : env.load_model s <;>
        simp [process_video, hext, hlm, cleanup_unlink_audio]

/-- The returned value of `process_video` does not depend on the unlink
oracle. -/
theorem pv_result_indep (env : Env) (f : String → Bool) (cache : Option ModelH)
    (s : String) (fs0 : List String) :
    (process_video { env with unlink_fails := f } cache s fs0).result =
      (process_video env cache s fs0).result := by
  cases cache <;>
    cases hext : (extract_audio_from_video env video_path audio_path).ok <;>
      simp only [process_video, extract_update_unlink, transcribe_only_update_unlink,
        show ({ env with unlink_fails := f } : Env).load_model = env.load_model from rfl,
        hext, Bool.false_eq_true, if_true, if_false] <;>
        first
          | rfl
          | (cases hlm : env.load_model s <;> simp only [hlm])

/-- The reported error messages of `process_video` do not depend on the
unlink oracle: unlink failures are silently swallowed. -/
theorem pv_errors_indep (env : Env) (f : String → Bool) (cache : Option ModelH)
    (s : String) (fs0 : List String) :
    (process_video { env with unlink_fails := f } cache s fs0).errors =
      (process_video env cache s fs0).errors := by
  cases cache <;>
    cases hext : (extract_audio_from_video env video_path audio_path).ok <;>
      simp only [process_video, extract_update_unlink, transcribe_only_update_unlink,
        show ({ env with unlink_fails := f } : Env).load_model = env.load_model from rfl,
        hext, Bool.false_eq_true, if_true, if_false] <;>
        first
          | rfl
          | (cases hlm : env.load_model s <;> simp only [hlm])

/-- Splitting a word (a run of non-whitespace characters) followed by `l`
prepends the word to the first chunk of the split of `l`. -/
theorem splitOnP_prepend_word (w l : List Char)
    (hw : ∀ c ∈ w, c.isWhitespace = false) :
    (w ++ l).splitOnP (fun c => c.isWhitespace) =
      ((l.splitOnP (fun c => c.isWhitespace)).modifyHead (w ++ ·)) := by
  induction w with
  | nil =>
      obtain ⟨a, as, ha⟩ := List.exists_cons_of_ne_nil
        (List.splitOnP_ne_nil (fun x => x.isWhitespace) l)
      simp [ha]
  | cons c w ih =>
      have hc : c.isWhitespace = false := hw c (by simp)
      rw [List.cons_append, List.splitOnP_cons, hc]
      rw [ih (fun d hd => hw d (by simp [hd]))]
      obtain ⟨a, as, ha⟩ := List.exists_cons_of_ne_nil
        (List.splitOnP_ne_nil (fun x => x.isWhitespace) l)
      rw [ha]
      simp

/-- The head of a non-empty `dropWhile` result falsifies the predicate. -/
theorem dropWhile_head_false {q : Char → Bool} {cs r : List Char} {d : Char}
    (h : cs.dropWhile q = d :: r) : q d = false := by
  induction cs with
  | nil => simp at h
  | cons a as ih =>
      rw [List.dropWhile_cons] at h
      by_cases ha : q a = true
      · rw [if_pos ha] at h; exact ih h
      · rw [if_neg ha] at h
        rw [Bool.not_eq_true] at ha
        cases h
        exact ha

/-- After dropping a leading non-whitespace run, the whitespace split
starts with an empty chunk. -/
theorem splitOnP_after_word (cs : List Char) :
    ∃ as, ((cs.dropWhile (fun d => !d.isWhitespace)).splitOnP
        (fun c => c.isWhitespace)) = [] :: as := by
  cases h : cs.dropWhile (fun d => !d.isWhitespace) with
  | nil => exact ⟨[], by simp [List.splitOnP_nil]⟩
  | cons d r =>
      have hd : d.isWhitespace = true := by
        have := dropWhile_head_false h
        simpa using this
      exact ⟨r.splitOnP (fun c => c.isWhitespace),
        by rw [List.splitOnP_cons, hd]; simp⟩

/-- Python's `str.split()` produces exactly the non-empty chunks of the
whitespace split. -/
theorem py_words_eq_tokens (l : List Char) :
    py_words l =
      ((l.splitOnP (fun c => c.isWhitespace)).filter (fun w => w ≠ [])) := by
  induction l using py_words.induct with
  | case1 => simp [py_words, List.splitOnP_nil]
  | case2 c cs hc ih =>
      rw [py_words, if_pos hc, List.splitOnP_cons, if_pos hc]
      rw [ih]
      simp
  | case3 c cs hc ih =>
      rw [py_words, if_neg hc]
      have hsplit : c :: cs =
          (c :: cs.takeWhile (fun d => !d.isWhitespace)) ++
            cs.dropWhile (fun d => !d.isWhitespace) := by
        rw [List.cons_append, List.takeWhile_append_dropWhile]
      have hw : ∀ x ∈ c :: cs.takeWhile (fun d => !d.isWhitespace),
          x.isWhitespace = false := by
        intro x hx
        rcases List.mem_cons.mp hx with hx | hx
        · subst hx
          exact Bool.not_eq_true _ ▸ (by simpa using hc)
        · have := List.mem_takeWhile_imp hx
          simpa using this
      obtain ⟨as, has⟩ := splitOnP_after_word cs
      rw [hsplit, splitOnP_prepend_word _ _ hw, has, ih, has]
      simp

/-! ### Claim theorems -/

/-- C2 (counterexample): the claim that the audio extractor releases both
acquired handles on the failure path is false.  In an environment where
`write_audiofile` raises, the video handle was opened and the audio handle
acquired, yet neither `close()` ever runs. -/
theorem C2_counterexample :
    (extract_audio_from_video env_write_fails video_path audio_path).video_opened = true ∧
    (extract_audio_from_video env_write_fails video_path audio_path).audio_acquired = true ∧
    (extract_audio_from_video env_write_fails video_path audio_path).video_closed = false ∧
    (extract_audio_from_video env_write_fails video_path audio_path).audio_closed = false :=
  ⟨rfl, rfl, rfl, rfl⟩

/-- C2 (amended): the two `close()` calls are the last statements of the
`try` body, so each handle is released exactly when the call succeeds; on
every failure path neither handle is closed. -/
theorem C2_handles_closed_iff_success (env : Env) (vp ap : String) :
    (extract_audio_from_video env vp ap).video_closed =
      (extract_audio_from_video env vp ap).ok ∧
    (extract_audio_from_video env vp ap).audio_closed =
      (extract_audio_from_video env vp ap).ok := by
  unfold extract_audio_from_video
  split
  · exact ⟨rfl, rfl⟩
  · split
    · exact ⟨rfl, rfl⟩
    · split <;> exact ⟨rfl, rfl⟩

/-- C8: for every size selector, `load_whisper_model` either succeeds —
overwriting the cached handle and returning `True` — or reports the error
and returns `False` with the cache untouched.  It is a total function, so
no exception escapes its boundary. -/
theorem C8_loader_reports_or_succeeds (env : Env) (cache : Option ModelH)
    (model_size : String) :
    (∃ m, env.load_model model_size = some m ∧
       load_whisper_model env cache model_size = (true, some m, [])) ∨
    (env.load_model model_size = none ∧
       load_whisper_model env cache model_size =
         (false, cache, ["Error loading Whisper model"])) := by
  unfold load_whisper_model
  cases h : env.load_model model_size with
  | some m => exact Or.inl ⟨m, rfl, rfl⟩
  | none => exact Or.inr ⟨rfl, rfl⟩

/-- C10: `transcribe_with_whisper` is extensionally equal to
`transcribe_with_whisper_only` at selector `"base"` — same result, same
cache, same trace — from every starting cache state; and once a model is
cached the two agree for every selector. -/
theorem C10_transcribe_equiv (env : Env) (cache : Option ModelH) (ap : String) :
    transcribe_with_whisper env cache ap =
      transcribe_with_whisper_only env cache ap "base" ∧
    ∀ (m : ModelH) (s : String),
      transcribe_with_whisper_only env (some m) ap s =
        transcribe_with_whisper env (some m) ap := by
  refine ⟨?_, fun m s => rfl⟩
  cases cache <;> rfl

/-- C1 (counterexample): the claim that both unlink attempts occur
unconditionally — regardless of whether the other unlink attempt failed —
is false.  Both unlinks share one `try` block, so in an environment where
`os.unlink(video_path)` raises, the audio unlink is never attempted. -/
theorem C1_counterexample :
    (process_video env_unlink_video_fails none "base" []).unlink_video_attempted
        = true ∧
    (process_video env_unlink_video_fails none "base" []).unlink_audio_attempted
        = false := by
  constructor <;> rfl

/-- C1 (amended): on every invocation of `process_video` both staged files
have been created by the time extraction is invoked; the video unlink is
always attempted; the audio unlink is attempted exactly when the video
unlink does not raise; and unlink failures are silently ignored — neither
the returned value nor the reported errors depend on the unlink oracle. -/
theorem C1_staging_and_cleanup (env : Env) (cache : Option ModelH)
    (model_size : String) (fs0 : List String) (f g : String → Bool) :
    (process_video env cache model_size fs0).fs_at_extract =
      audio_path :: video_path :: fs0 ∧
    (process_video env cache model_size fs0).unlink_video_attempted = true ∧
    (process_video env cache model_size fs0).unlink_audio_attempted =
      !env.unlink_fails video_path ∧
    (process_video { env with unlink_fails := f } cache model_size fs0).result =
      (process_video { env with unlink_fails := g } cache model_size fs0).result ∧
    (process_video { env with unlink_fails := f } cache model_size fs0).errors =
      (process_video { env with unlink_fails := g } cache model_size fs0).errors :=
  ⟨pv_fs_at_extract env cache model_size fs0,
   pv_unlink_video env cache model_size fs0,
   pv_unlink_audio env cache model_size fs0,
   (pv_result_indep env f cache model_size fs0).trans
     (pv_result_indep env g cache model_size fs0).symm,
   (pv_errors_indep env f cache model_size fs0).trans
     (pv_errors_indep env g cache model_size fs0).symm⟩

/-- C4: an upload whose declared size exceeds the 200 MiB ceiling never
reaches `process_video`: no temporary file is created, the session is
untouched, and the oversize error message is surfaced. -/
theorem C4_oversize_rejected (env : Env) (cache : Option ModelH)
    (session : Option String) (size : Nat) (model_size : String)
    (fs0 : List String) (h : size > max_upload_bytes) :
    (start_transcription_click env cache session size model_size fs0).pipeline_invoked
        = false ∧
    (start_transcription_click env cache session size model_size fs0).oversize_error
        = true ∧
    (start_transcription_click env cache session size model_size fs0).fs_final
        = fs0 ∧
    (start_transcription_click env cache session size model_size fs0).session_transcription
        = session := by
  unfold start_transcription_click
  rw [if_pos h]
  exact ⟨rfl, rfl, rfl, rfl⟩

/-- C4 (witness): a 200 MiB + 1 byte upload is rejected. -/
theorem C4_oversize_rejected_witness :
    (200 * 1024 * 1024 + 1 > max_upload_bytes) ∧
    ((start_transcription_click env_ok none none (200 * 1024 * 1024 + 1) "base" []).pipeline_invoked
        = false ∧
     (start_transcription_click env_ok none none (200 * 1024 * 1024 + 1) "base" []).oversize_error
        = true ∧
     (start_transcription_click env_ok none none (200 * 1024 * 1024 + 1) "base" []).fs_final
        = [] ∧
     (start_transcription_click env_ok none none (200 * 1024 * 1024 + 1) "base" []).session_transcription
        = none) :=
  ⟨by decide,
   C4_oversize_rejected env_ok none none (200 * 1024 * 1024 + 1) "base" [] (by decide)⟩

/-- C5 (counterexample): the parenthetical claim that on an
extraction-failure invocation both staged-file deletions are attempted is
false: with a corrupted video and `os.unlink(video_path)` raising, the
audio deletion is never attempted (both unlinks share one `try`). -/
theorem C5_counterexample :
    (process_video env_corrupt_unlink_fails none "base" []).transcribe_invoked
        = false ∧
    (process_video env_corrupt_unlink_fails none "base" []).result = none ∧
    (process_video env_corrupt_unlink_fails none "base" []).unlink_video_attempted
        = true ∧
    (process_video env_corrupt_unlink_fails none "base" []).unlink_audio_attempted
        = false := by
  refine ⟨rfl, rfl, rfl, rfl⟩

/-- C5 (amended): a failing extraction step short-circuits the rest of the
pipeline — the transcription step and the model loader are never invoked,
the cache is untouched, and `None` is returned — while the cleanup block
still runs: the video deletion is always attempted, and the audio deletion
is attempted exactly when the video deletion does not raise. -/
theorem C5_extraction_failure_short_circuits (env : Env) (cache : Option ModelH)
    (model_size : String) (fs0 : List String)
    (h : (extract_audio_from_video env video_path audio_path).ok = false) :
    (process_video env cache model_size fs0).transcribe_invoked = false ∧
    (process_video env cache model_size fs0).load_invoked = false ∧
    (process_video env cache model_size fs0).result = none ∧
    (process_video env cache model_size fs0).cache = cache ∧
    (process_video env cache model_size fs0).unlink_video_attempted = true ∧
    (process_video env cache model_size fs0).unlink_audio_attempted =
      !env.unlink_fails video_path := by
  simp [process_video, h, cleanup_unlink_video, cleanup_unlink_audio]

/-- C5 (witness): with a corrupted video (and a well-behaved filesystem)
the extraction step fails, transcription is never attempted, `None` is
returned, and both unlinks are attempted. -/
theorem C5_extraction_failure_witness :
    (extract_audio_from_video env_corrupt video_path audio_path).ok = false ∧
    ((process_video env_corrupt none "base" []).transcribe_invoked = false ∧
     (process_video env_corrupt none "base" []).load_invoked = false ∧
     (process_video env_corrupt none "base" []).result = none ∧
     (process_video env_corrupt none "base" []).cache = none ∧
     (process_video env_corrupt none "base" []).unlink_video_attempted = true ∧
     (process_video env_corrupt none "base" []).unlink_audio_attempted =
       !env_corrupt.unlink_fails video_path) :=
  ⟨rfl, C5_extraction_failure_short_circuits env_corrupt none "base" [] rfl⟩

/-- C3 (counterexample): the claim that the cached handle is keyed by the
size selector is false.  In an environment where `whisper.load_model`
returns a handle recording the requested size, a first invocation with
selector `"base"` fills the cache; a second invocation with selector
`"large"` then transcribes with the handle loaded for `"base"`, not with a
handle loaded for `"large"`. -/
theorem C3_counterexample :
    (process_video env_ok (process_video env_ok none "base" []).cache
        "large" []).model_used = some "base" ∧
    env_ok.load_model "large" = some "large" ∧
    ("base" : ModelH) ≠ "large" := by
  refine ⟨rfl, rfl, by decide⟩

/-- C3 (amended): the cache is a single process-wide handle not keyed by
the selector.  Whenever a handle is already cached, the transcription step
uses that handle regardless of the current selector and the cache is left
unchanged; only when the cache is empty is a handle loaded for the current
selector (and used, when loading succeeds). -/
theorem C3_cache_not_keyed (env : Env) (m : ModelH) (model_size : String)
    (fs0 : List String) :
    (process_video env (some m) model_size fs0).model_used =
      (if (extract_audio_from_video env video_path audio_path).ok
        then some m else none) ∧
    (process_video env (some m) model_size fs0).cache = some m ∧
    (process_video env none model_size fs0).model_used =
      (if (extract_audio_from_video env video_path audio_path).ok
        then env.load_model model_size else none) := by
  cases hext : (extract_audio_from_video env video_path audio_path).ok <;>
    cases hlm : env.load_model model_size <;>
      simp [process_video, hext, hlm, transcribe_only_cache_some,
        transcribe_only_model_used_some]

/-- C6: back-to-back invocations with the same selector: when the first
invocation (from an empty cache) leaves a handle cached, the second
invocation never calls `whisper.load_model`, transcribes with the cached
handle, and returns the same transcription as the first. -/
theorem C6_second_invocation_reuses_cache (env : Env) (model_size : String)
    (fs0 fs1 : List String) (m : ModelH)
    (h : (process_video env none model_size fs0).cache = some m) :
    (process_video env (process_video env none model_size fs0).cache
        model_size fs1).load_invoked = false ∧
    (process_video env (process_video env none model_size fs0).cache
        model_size fs1).model_used = some m ∧
    (process_video env (process_video env none model_size fs0).cache
        model_size fs1).result =
      (process_video env none model_size fs0).result := by
  have hext : (extract_audio_from_video env video_path audio_path).ok = true := by
    by_contra hx
    rw [Bool.not_eq_true] at hx
    simp [process_video, hx] at h
  have hlm : env.load_model model_size = some m := by
    cases hl : env.load_model model_size with
    | none => simp [process_video, hext, hl] at h
    | some m2 =>
        simp [process_video, hext, hl, transcribe_only_cache_some] at h
        rw [h]
  rw [h]
  simp [process_video, hext, hlm, transcribe_only_cache_some,
    transcribe_only_model_used_some, transcribe_only_no_load_some,
    transcribe_only_result_some]

/-- C6 (witness): with every external call succeeding, a first invocation
with selector `"small"` caches a handle, and the second invocation reuses
it without reloading and returns the same transcription. -/
theorem C6_second_invocation_witness :
    (process_video env_ok none "small" []).cache = some "small" ∧
    ((process_video env_ok (process_video env_ok none "small" []).cache
        "small" []).load_invoked = false ∧
     (process_video env_ok (process_video env_ok none "small" []).cache
        "small" []).model_used = some "small" ∧
     (process_video env_ok (process_video env_ok none "small" []).cache
        "small" []).result = (process_video env_ok none "small" []).result) :=
  ⟨rfl, C6_second_invocation_reuses_cache env_ok "small" [] [] "small" rfl⟩

/-- C9: when the transcription engine returns the empty string,
`process_video` returns that empty string, but the button handler treats
it as falsy: the generic failure message is shown, no completion message,
nothing is stored in the session state, and the results panel keeps
showing nothing. -/
theorem C9_empty_transcription_is_failure (env : Env) (m : ModelH)
    (model_size : String) (size : Nat) (fs0 : List String)
    (hsize : size ≤ max_upload_bytes)
    (hext : (extract_audio_from_video env video_path audio_path).ok = true)
    (htr : env.transcribe m audio_path = some "") :
    (process_video env (some m) model_size fs0).result = some "" ∧
    (start_transcription_click env (some m) none size model_size fs0).failure_message
        = true ∧
    (start_transcription_click env (some m) none size model_size fs0).success_message
        = false ∧
    (start_transcription_click env (some m) none size model_size fs0).session_transcription
        = none ∧
    results_panel_shows
      (start_transcription_click env (some m) none size model_size fs0).session_transcription
        = none := by
  have hres : (process_video env (some m) model_size fs0).result = some "" := by
    simp [process_video, hext, transcribe_only_result_some, htr]
  have hnot : ¬ size > max_upload_bytes := by omega
  refine ⟨hres, ?_, ?_, ?_, ?_⟩ <;>
    · unfold start_transcription_click
      rw [if_neg hnot]
      simp [hres, results_panel_shows]

/-- C9 (witness): an environment whose transcription engine returns the
empty string exercises every hypothesis of the theorem. -/
theorem C9_empty_transcription_witness :
    ((0 : Nat) ≤ max_upload_bytes ∧
     (extract_audio_from_video env_empty_text video_path audio_path).ok = true ∧
     env_empty_text.transcribe "base" audio_path = some "") ∧
    ((process_video env_empty_text (some "base") "base" []).result = some "" ∧
     (start_transcription_click env_empty_text (some "base") none 0 "base" []).failure_message
        = true ∧
     (start_transcription_click env_empty_text (some "base") none 0 "base" []).success_message
        = false ∧
     (start_transcription_click env_empty_text (some "base") none 0 "base" []).session_transcription
        = none ∧
     results_panel_shows
       (start_transcription_click env_empty_text (some "base") none 0 "base" []).session_transcription
        = none) :=
  ⟨⟨by decide, rfl, rfl⟩,
   C9_empty_transcription_is_failure env_empty_text "base" "base" 0 []
     (by decide) rfl rfl⟩

/-- C7: the displayed word count — `len(transcription.split())` — equals
the number of whitespace-separated tokens of the string, and the displayed
character count equals the string's length; in particular for
`"hello world"` they are 2 and 11. -/
theorem C7_word_and_char_count (s : String) :
    word_count s = whitespace_token_count s ∧
    char_count s = s.length ∧
    word_count "hello world" = 2 ∧
    char_count "hello world" = 11 := by
  have hgen : ∀ t : String, word_count t = whitespace_token_count t := by
    intro t
    unfold word_count whitespace_token_count
    rw [py_words_eq_tokens]
  exact ⟨hgen s, rfl, (hgen "hello world").trans (by decide), by decide⟩

end VideoTranscriber
